import Mathlib

/-!
# Verification of the study-tutor application core

A shallow embedding of `src/app.py`: the chapter-aware random page
selector `get_random_chapter_page`, the per-session state record kept in
`st.session_state`, and the three UI action handlers (Generate Random
Question, Check Answer, Reset App) together with the prompt templates.

Python `random.randint(lo, hi)` draws uniformly from the inclusive range
`[lo, hi]`; it is modelled by `randint lo hi r`, deterministic in a seed
`r : Nat`, so that as `r` ranges over `[0, hi - lo]` every value of the
range is produced exactly once.  Python `random.choice(seq)` is modelled
the same way by `random_choice`.  The remote model client is modelled as
a function argument; a value `none` stands for the call raising.
-/

namespace StudyTutor

/-- One entry of the PDF outline (table of contents), as returned by
`doc.get_toc()`: a `(level, title, target page)` triple with a 1-based
target page.  Python integers are unbounded, hence `Int`. -/
structure OutlineEntry where
  level : Int
  title : String
  target_page : Int
deriving DecidableEq, Inhabited

/-- The document handle: its page count (`len(doc)`) and its outline
(`doc.get_toc()`).  The PDF payload itself is irrelevant to the logic. -/
structure Document where
  page_count : Nat
  toc : List OutlineEntry
deriving DecidableEq, Inhabited

/-- Model of Python `random.randint(lo, hi)`: the draw determined by the
seed `r`.  For `lo ≤ hi`, as `r` ranges over `[0, hi - lo]` this is a
bijection onto the inclusive range `[lo, hi]`. -/
def randint (lo hi : Int) (r : Nat) : Int :=
  lo + (r : Int) % (hi + 1 - lo)

/-- Embedding of `get_random_chapter_page(doc)` (src/app.py lines 22-41).
The two `random.randint` draws are driven by the seeds `r1` (chapter
index, or the whole-document page draw on the fallback branches) and
`r2` (the page draw inside the chosen chapter). -/
def get_random_chapter_page (doc : Document) (r1 r2 : Nat) : Int × String :=
  if doc.toc.isEmpty then
    (randint 0 ((doc.page_count : Int) - 1) r1, "Unknown Chapter (No ToC)")
  else
    let chapters := doc.toc.filter (fun item => item.level ≤ 2)
    if chapters.isEmpty then
      (randint 0 ((doc.page_count : Int) - 1) r1, "Random Page")
    else
      let idx := (randint 0 ((chapters.length : Int) - 1) r1).toNat
      let title := (chapters.getD idx default).title
      let start := (chapters.getD idx default).target_page - 1
      let e :=
        if idx < chapters.length - 1 then
          (chapters.getD (idx + 1) default).target_page - 2
        else
          (doc.page_count : Int) - 1
      let e2 := if e < start then start else e
      (randint start e2 r2, title)

/-- The outline entries that qualify as chapter heads:
`[item for item in toc if item[0] <= 2]` (src/app.py line 27). -/
def filtered_chapters (doc : Document) : List OutlineEntry :=
  doc.toc.filter (fun item => item.level ≤ 2)

/-- Zero-based start page of chapter `i` of the filtered outline:
`chapters[idx][2] - 1` (src/app.py line 33). -/
def chapter_start (chs : List OutlineEntry) (i : Nat) : Int :=
  (chs.getD i default).target_page - 1

/-- Zero-based end page of chapter `i` before clamping:
`chapters[idx + 1][2] - 2` when another chapter follows, else
`len(doc) - 1` (src/app.py lines 35-38). -/
def chapter_end_raw (doc : Document) (chs : List OutlineEntry) (i : Nat) : Int :=
  if i < chs.length - 1 then
    (chs.getD (i + 1) default).target_page - 2
  else
    (doc.page_count : Int) - 1

/-- End page of chapter `i` after the clamp `if end < start: end = start`
(src/app.py line 40). -/
def chapter_end (doc : Document) (chs : List OutlineEntry) (i : Nat) : Int :=
  if chapter_end_raw doc chs i < chapter_start chs i then
    chapter_start chs i
  else
    chapter_end_raw doc chs i

/- ### Basic facts about the randint model -/

/-- For a non-degenerate range the draw lands inside it. -/
lemma randint_mem {lo hi : Int} (r : Nat) (h : lo ≤ hi) :
    lo ≤ randint lo hi r ∧ randint lo hi r ≤ hi := by
  unfold randint
  have hm : 0 < hi + 1 - lo := by omega
  have h1 : 0 ≤ (r : Int) % (hi + 1 - lo) := Int.emod_nonneg _ (by omega)
  have h2 : (r : Int) % (hi + 1 - lo) < hi + 1 - lo := Int.emod_lt_of_pos _ hm
  omega

/-- Uniformity of the model: each value of `[lo, hi]` is hit by exactly
one seed in `[0, hi - lo]`, and no value outside the range is hit. -/
lemma randint_uniform {lo hi : Int} (h : lo ≤ hi) (p : Int) :
    (lo ≤ p ∧ p ≤ hi) ↔
      ∃! r : Nat, (r : Int) ≤ hi - lo ∧ randint lo hi r = p := by
  unfold randint
  have hm : 0 < hi + 1 - lo := by omega
  have hself : ∀ r : Nat, (r : Int) ≤ hi - lo → (r : Int) % (hi + 1 - lo) = r :=
    fun r hr => Int.emod_eq_of_lt (by omega) (by omega)
  constructor
  · rintro ⟨h1, h2⟩
    refine ⟨(p - lo).toNat, ⟨by omega, ?_⟩, ?_⟩
    · rw [hself _ (by omega)]
      omega
    · rintro y ⟨hy1, hy2⟩
      rw [hself _ hy1] at hy2
      omega
  · rintro ⟨r, ⟨hr1, hr2⟩, -⟩
    rw [hself _ hr1] at hr2
    omega

/-- Elements looked up by `getD` at an in-range index belong to the list. -/
lemma getD_mem_of_lt {α : Type} [Inhabited α] (l : List α) (i : Nat)
    (h : i < l.length) : l.getD i default ∈ l := by
  rw [List.getD_eq_getElem l default h]
  exact List.getElem_mem h

/-- Every filtered chapter entry comes from the outline. -/
lemma filtered_chapters_sub (doc : Document) (e : OutlineEntry)
    (h : e ∈ filtered_chapters doc) : e ∈ doc.toc := by
  exact (List.mem_filter.mp h).1

/- ### Session state and action handlers -/

/-- The rendered page bitmap of `get_page_image(doc, page_num)`
(src/app.py lines 16-20), abstracted to the document and page it
renders; rasterization itself is delegated to the external PDF library
and is deterministic in these two inputs. -/
structure Image where
  doc : Document
  page_num : Int
deriving DecidableEq

/-- Embedding of `get_page_image` (src/app.py lines 16-20). -/
def get_page_image (doc : Document) (page_num : Int) : Image :=
  ⟨doc, page_num⟩

/-- The per-session mutable state kept in `st.session_state`: the keys
the script writes (`page`, `chapter`, `img`, `current_question`,
`q_type`, `feedback`) plus the text-area widget value `answer`, which
Streamlit also keeps in the session and which `st.session_state.clear()`
also empties.  A key that was never written is `none`. -/
structure SessionState where
  page : Option Int := none
  chapter : Option String := none
  img : Option Image := none
  current_question : Option String := none
  q_type : Option String := none
  feedback : Option String := none
  answer : Option String := none
deriving DecidableEq

/-- The zero value of the session state: every field absent. -/
def emptySession : SessionState := {}

/-- Embedding of the Reset App handler (src/app.py lines 72-74):
`st.session_state.clear()` followed by `st.rerun()`. -/
def resetHandler (_s : SessionState) : SessionState := emptySession

/-- `q_types = ["Multiple Choice", "Fill-in-the-Blank", "Open-Ended"]`
(src/app.py line 91). -/
def q_types : List String :=
  ["Multiple Choice", "Fill-in-the-Blank", "Open-Ended"]

/-- Model of Python `random.choice(seq)`: the uniform draw from `seq`
determined by the seed `r`; as `r` ranges over `[0, seq.length)` every
element is produced exactly once. -/
def random_choice (l : List String) (r : Nat) : String :=
  l.getD (r % l.length) ""

/-- The `base_prompt` f-string of the Generate handler (src/app.py
lines 98-103); text transcribed with the surrounding indentation
normalised to newlines. -/
def base_prompt (chapter : String) : String :=
  "You are a Gynecology Professor.\nTopic: " ++ chapter ++
  ".\nLanguage: Hebrew. Make sure you translate the medical terms correctly, including inferring the correct medical practice terms.\nBased EXCLUSIVELY on the provided image:\n"

/-- The `specific_instruction` branch of the Generate handler
(src/app.py lines 105-127), keyed on the selected archetype. -/
def specific_instruction (selected_type : String) : String :=
  if selected_type = "Multiple Choice" then
    "Create a challenging Multiple Choice Question (MCQ).\n1. Provide the question stem.\n2. Provide 4 distinct options labeled A, B, C, D.\n3. Do NOT reveal the correct answer yet.\n4. Ensure the options are plausible, and provide enough context.\n"
  else if selected_type = "Fill-in-the-Blank" then
    "Create a Fill-in-the-Blank sentence.\n1. Take a key clinical sentence from the text.\n2. Replace the most critical medical term (e.g., drug name, diagnosis, statistic) with _______.\n3. Do NOT reveal the missing term.\n"
  else
    "Create a short, difficult Open-Ended question.\n1. Ask for a diagnosis, a list of symptoms, or an explanation of a mechanism shown in the text.\n2. If there is a table, ask about an item from the table. Provide the column and row headers regarding the question.\n3. If there is a graph, ask to interpret the data.\n4. If tere are both table and graph, choose one about which you form the question.\n"

/-- `full_prompt = base_prompt + specific_instruction` (src/app.py
line 129). -/
def full_prompt (chapter selected_type : String) : String :=
  base_prompt chapter ++ specific_instruction selected_type

/-- The `grade_prompt` f-string of the Check Answer handler (src/app.py
lines 154-169), parameterized by the stored archetype, the stored
question and the learner answer. -/
def grade_prompt (q_type question ans : String) : String :=
  "You are grading a student answer.\n\nQuestion Type: " ++ q_type ++
  "\nQuestion: " ++ question ++
  "\nStudent Answer: " ++ ans ++
  "\n\nTask:\n1. Verify the answer against the image provided.\n2. If it is Multiple Choice, check if they selected the correct option letter or text.\n3. If it is Fill-in-the-Blank, check if they found the exact missing term.\n4. Provide the correct answer and a brief explanation.\n\nOutput Language: Hebrew.\nUse bold text for the final verdict (Correct/Incorrect).\n"

/-- Embedding of the Check Answer handler (src/app.py lines 152-174).
It unconditionally builds the grading prompt, sends it to the model
client, and overwrites `st.session_state.feedback` with the response;
there is no guard on `ans`.  The second component records the grading
calls made to the model client during the action. -/
def checkAnswerHandler (s : SessionState) (ans : String)
    (respond : String → String) : SessionState × List String :=
  let prompt := grade_prompt (s.q_type.getD "") (s.current_question.getD "") ans
  ({ s with feedback := some (respond prompt) }, [prompt])

/-- Embedding of the Generate Random Question handler (src/app.py
lines 80-135).  Assignments to `st.session_state` happen in program
order; the model client is modelled by `respond`, where `none` stands
for the call raising, in which case the handler propagates the failure
and the state keeps exactly the writes made before the call. -/
def generateHandler (doc : Document) (s : SessionState) (r1 r2 rT : Nat)
    (respond : String → Option String) : SessionState :=
  let s0 := { s with feedback := none, current_question := none }
  let pc := get_random_chapter_page doc r1 r2
  let s1 := { s0 with
    page := some pc.1
    chapter := some pc.2
    img := some (get_page_image doc pc.1) }
  let selected_type := random_choice q_types rT
  let s2 := { s1 with q_type := some selected_type }
  match respond (full_prompt pc.2 selected_type) with
  | none => s2
  | some t => { s2 with current_question := some t }

/- ### Rendering of the question and feedback blocks -/

/-- The question markdown block (src/app.py lines 143-148): the chapter
title and the stored question interpolated into an HTML `div` rendered
with `unsafe_allow_html=True`. -/
def render_question_block (chapter question : String) : String :=
  "<div style=\"direction: rtl; text-align: right; background-color: #f0f2f6; padding: 20px; border-radius: 10px; border-right: 5px solid #ff4b4b;\">\n<p style=\"font-weight: bold; color: #555;\">נושא: " ++
  chapter ++ "</p>\n<div style=\"font-size: 1.1em; white-space: pre-wrap;\">" ++
  question ++ "</div>\n</div>"

/-- The feedback markdown block (src/app.py lines 179-183): the stored
feedback, with `chr(10)` replaced by `<br>`, interpolated into an HTML
`div` rendered with `unsafe_allow_html=True`. -/
def render_feedback_block (feedback : String) : String :=
  "<div style=\"direction: rtl; text-align: right; background-color: #d4edda; padding: 20px; border-radius: 10px; border-right: 5px solid #28a745; color: #155724;\">\n" ++
  (feedback.replace "\n" "<br>") ++ "\n</div>"

/-- Modelled from the spec: entity replacement of one HTML
metacharacter. -/
def escape_char (c : Char) : List Char :=
  if c = '&' then ['&', 'a', 'm', 'p', ';']
  else if c = '<' then ['&', 'l', 't', ';']
  else if c = '>' then ['&', 'g', 't', ';']
  else if c = '"' then ['&', 'q', 'u', 'o', 't', ';']
  else [c]

/-- Modelled from the spec: the HTML escaping the spec asserts for the
rendered text blocks (HTML metacharacters of the model response made
inert).  Standard entity replacement of the four metacharacters. -/
def html_escape_spec (s : String) : String :=
  ⟨(s.data.map escape_char).flatten⟩

/-- Modelled from the spec: the question block as it would be rendered
if the stored question text were HTML-escaped before interpolation. -/
def render_question_block_escaped (chapter question : String) : String :=
  render_question_block chapter (html_escape_spec question)

/-- The spec scenario document: outline
`[(1, Ch1, 1), (1, Ch2, 10), (1, Ch3, 25)]` with 30 pages. -/
def exDoc : Document :=
  ⟨30, [⟨1, "Ch1", 1⟩, ⟨1, "Ch2", 10⟩, ⟨1, "Ch3", 25⟩]⟩

/-- A document falsifying the coverage and non-overlap parts of the
chapter-range invariant: first target page is 5 and targets decrease. -/
def doc4 : Document := ⟨10, [⟨1, "A", 5⟩, ⟨1, "B", 2⟩]⟩

/-- A document whose only outline entry carries an empty title. -/
def docEmptyTitle : Document := ⟨1, [⟨1, "", 1⟩]⟩

/- ### Branch characterizations of the page selector -/

/-- The seed `i` drives `random.randint(0, n - 1)` to the index `i`. -/
lemma randint_index {n : Nat} (i : Nat) (h : i < n) :
    (randint 0 ((n : Int) - 1) i).toNat = i := by
  unfold randint
  have : ((i : Nat) : Int) % ((n : Int) - 1 + 1 - 0) = i :=
    Int.emod_eq_of_lt (by omega) (by omega)
  omega

/-- Uniformity of the index draw: each index below `n` is produced by
exactly one seed below `n`, and no other value is. -/
lemma randint_index_uniform {n : Nat} (_hn : 0 < n) (j : Nat) :
    j < n ↔ ∃! r : Nat, r < n ∧ (randint 0 ((n : Int) - 1) r).toNat = j := by
  constructor
  · intro hj
    refine ⟨j, ⟨hj, randint_index j hj⟩, ?_⟩
    rintro y ⟨hy, hey⟩
    rw [randint_index y hy] at hey
    omega
  · rintro ⟨r, ⟨hr, hre⟩, -⟩
    rw [randint_index r hr] at hre
    omega

/-- With no outline at all, the selector draws over the whole document
and reports the sentinel title. -/
lemma grcp_empty_toc (doc : Document) (r1 r2 : Nat) (h : doc.toc = []) :
    get_random_chapter_page doc r1 r2 =
      (randint 0 ((doc.page_count : Int) - 1) r1, "Unknown Chapter (No ToC)") := by
  unfold get_random_chapter_page
  simp [h]

/-- With an outline but no entry of level at most 2, the selector draws
over the whole document and reports the generic title. -/
lemma grcp_no_chapters (doc : Document) (r1 r2 : Nat) (h1 : doc.toc ≠ [])
    (h2 : filtered_chapters doc = []) :
    get_random_chapter_page doc r1 r2 =
      (randint 0 ((doc.page_count : Int) - 1) r1, "Random Page") := by
  unfold filtered_chapters at h2
  unfold get_random_chapter_page
  simp [h1, h2]

/-- On the main branch the selector picks the chapter indexed by the
first draw and then draws a page between that chapter's start and its
clamped end. -/
lemma grcp_main (doc : Document) (r1 r2 : Nat) (h1 : doc.toc ≠ [])
    (h2 : filtered_chapters doc ≠ []) :
    get_random_chapter_page doc r1 r2 =
      (randint
        (chapter_start (filtered_chapters doc)
          ((randint 0 (((filtered_chapters doc).length : Int) - 1) r1).toNat))
        (chapter_end doc (filtered_chapters doc)
          ((randint 0 (((filtered_chapters doc).length : Int) - 1) r1).toNat)) r2,
       ((filtered_chapters doc).getD
          ((randint 0 (((filtered_chapters doc).length : Int) - 1) r1).toNat)
          default).title) := by
  unfold filtered_chapters at h2 ⊢
  simp [get_random_chapter_page, chapter_start, chapter_end, chapter_end_raw, h1, h2]

/-- The chosen chapter index is in range whenever the filtered list is
non-empty. -/
lemma grcp_idx_lt (doc : Document) (r1 : Nat) (h2 : filtered_chapters doc ≠ []) :
    (randint 0 (((filtered_chapters doc).length : Int) - 1) r1).toNat <
      (filtered_chapters doc).length := by
  have hlen : 0 < (filtered_chapters doc).length := List.length_pos.mpr h2
  have h := @randint_mem 0 (((filtered_chapters doc).length : Int) - 1) r1 (by omega)
  omega

/-- The clamp `if end < start: end = start` makes the end the maximum of
the start and the raw end. -/
lemma chapter_end_eq_max (doc : Document) (chs : List OutlineEntry) (i : Nat) :
    chapter_end doc chs i = max (chapter_start chs i) (chapter_end_raw doc chs i) := by
  unfold chapter_end
  split <;> omega

/-- The clamped end never precedes the start. -/
lemma chapter_start_le_end (doc : Document) (chs : List OutlineEntry) (i : Nat) :
    chapter_start chs i ≤ chapter_end doc chs i := by
  rw [chapter_end_eq_max]
  exact le_max_left _ _

/-- Bounds on a chapter range when every outline target page lies in
`[1, page_count]`: the range sits inside `[0, page_count)`. -/
lemma chapter_bounds (doc : Document) (_hpc : 1 ≤ doc.page_count)
    (htp : ∀ e ∈ doc.toc, 1 ≤ e.target_page ∧ e.target_page ≤ (doc.page_count : Int))
    (i : Nat) (hi : i < (filtered_chapters doc).length) :
    0 ≤ chapter_start (filtered_chapters doc) i ∧
    chapter_end doc (filtered_chapters doc) i ≤ (doc.page_count : Int) - 1 := by
  have hmem := getD_mem_of_lt (filtered_chapters doc) i hi
  have h1 := htp _ (filtered_chapters_sub doc _ hmem)
  have h2 : i + 1 < (filtered_chapters doc).length →
      1 ≤ ((filtered_chapters doc).getD (i + 1) default).target_page ∧
      ((filtered_chapters doc).getD (i + 1) default).target_page ≤ (doc.page_count : Int) :=
    fun h => htp _ (filtered_chapters_sub doc _ (getD_mem_of_lt _ _ h))
  rw [chapter_end_eq_max]
  unfold chapter_start chapter_end_raw
  constructor
  · omega
  · split
    case isTrue hc =>
      have := h2 (by omega)
      omega
    case isFalse hc => omega

/-- A concrete QuestionShown session: question and archetype stored,
feedback from an earlier round still present. -/
def sQuestionShown : SessionState :=
  { current_question := some "Q", q_type := some "Multiple Choice",
    feedback := some "old" }

/-- A document with a single page and no outline. -/
def docNoToc : Document := ⟨1, []⟩

/-- String concatenation is associative (via the list-of-characters
model). -/
lemma string_append_assoc (a b c : String) : a ++ b ++ c = a ++ (b ++ c) := by
  rcases a with ⟨a⟩
  rcases b with ⟨b⟩
  rcases c with ⟨c⟩
  show String.mk (a ++ b ++ c) = String.mk (a ++ (b ++ c))
  rw [List.append_assoc]

/-- `random.choice` over the three archetypes yields an archetype. -/
lemma random_choice_mem (r : Nat) : random_choice q_types r ∈ q_types := by
  unfold random_choice
  have hl : q_types.length = 3 := rfl
  rw [hl]
  have h : r % 3 = 0 ∨ r % 3 = 1 ∨ r % 3 = 2 := by omega
  rcases h with h | h | h <;> rw [h] <;> decide

/-- Each archetype is produced by exactly one seed below 3. -/
lemma random_choice_uniform (t : String) (ht : t ∈ q_types) :
    ∃! r : Nat, r < 3 ∧ random_choice q_types r = t := by
  simp only [q_types, List.mem_cons, List.mem_singleton, List.not_mem_nil,
    or_false] at ht
  have step : ∀ i : Nat, i < 3 → random_choice q_types i = q_types.getD i "" := by
    intro i hi
    unfold random_choice
    have hl : q_types.length = 3 := rfl
    rw [hl, Nat.mod_eq_of_lt hi]
  rcases ht with h | h | h
  · refine ⟨0, ⟨by omega, by rw [step 0 (by omega), h]; decide⟩, ?_⟩
    rintro y ⟨hy, hey⟩
    rw [step y hy, h] at hey
    interval_cases y
    · rfl
    · exact absurd hey (by decide)
    · exact absurd hey (by decide)
  · refine ⟨1, ⟨by omega, by rw [step 1 (by omega), h]; decide⟩, ?_⟩
    rintro y ⟨hy, hey⟩
    rw [step y hy, h] at hey
    interval_cases y
    · exact absurd hey (by decide)
    · rfl
    · exact absurd hey (by decide)
  · refine ⟨2, ⟨by omega, by rw [step 2 (by omega), h]; decide⟩, ?_⟩
    rintro y ⟨hy, hey⟩
    rw [step y hy, h] at hey
    interval_cases y
    · exact absurd hey (by decide)
    · exact absurd hey (by decide)
    · rfl

/- ### The claims -/

/-- Claim C1, counterexample: in a QuestionShown session, submitting the
empty answer does trigger a grading call to the model client and does
overwrite the feedback field, contradicting the claimed guard. -/
theorem C1_check_answer_empty_counterexample :
    (checkAnswerHandler sQuestionShown "" (fun _ => "graded")).2 ≠ [] ∧
    (checkAnswerHandler sQuestionShown "" (fun _ => "graded")).1.feedback ≠
      sQuestionShown.feedback := by
  constructor
  · intro h
    simp [checkAnswerHandler] at h
  · intro h
    simp [checkAnswerHandler, sQuestionShown] at h

/-- Claim C1 as amended: the Check Answer handler has no empty-answer
guard; submitting an empty answer triggers exactly one grading call,
built from the stored archetype and question, and overwrites the
feedback field with the model response.  No warning is produced. -/
theorem C1_check_answer_empty_amended (s : SessionState)
    (respond : String → String) :
    (checkAnswerHandler s "" respond).2 =
      [grade_prompt (s.q_type.getD "") (s.current_question.getD "") ""] ∧
    (checkAnswerHandler s "" respond).1.feedback =
      some (respond
        (grade_prompt (s.q_type.getD "") (s.current_question.getD "") "")) := by
  exact ⟨rfl, rfl⟩

/-- Claim C2, counterexample: a one-page document with a non-empty
outline whose single target page is in range, yet whose entry carries an
empty title; the selector returns that empty title, so the claimed
non-empty-title guarantee fails. -/
theorem C2_select_page_counterexample :
    1 ≤ docEmptyTitle.page_count ∧
    docEmptyTitle.toc ≠ [] ∧
    (∀ e ∈ docEmptyTitle.toc,
      1 ≤ e.target_page ∧ e.target_page ≤ (docEmptyTitle.page_count : Int)) ∧
    (get_random_chapter_page docEmptyTitle 0 0).2 = "" := by
  decide

/-- Claim C2 as amended: for a document with at least one page and a
non-empty outline whose target pages lie in `[1, page_count]`, the
selector returns a page index inside `[0, page_count)`; the returned
title is non-empty provided — additionally — every outline title is
non-empty (the two fallback titles are non-empty string constants). -/
theorem C2_select_page_amended (doc : Document) (hpc : 1 ≤ doc.page_count)
    (htoc : doc.toc ≠ [])
    (htp : ∀ e ∈ doc.toc, 1 ≤ e.target_page ∧ e.target_page ≤ (doc.page_count : Int))
    (r1 r2 : Nat) :
    0 ≤ (get_random_chapter_page doc r1 r2).1 ∧
    (get_random_chapter_page doc r1 r2).1 < (doc.page_count : Int) ∧
    ((∀ e ∈ doc.toc, e.title ≠ "") →
      (get_random_chapter_page doc r1 r2).2 ≠ "") := by
  by_cases h2 : filtered_chapters doc = []
  · rw [grcp_no_chapters doc r1 r2 htoc h2]
    have h := @randint_mem 0 ((doc.page_count : Int) - 1) r1 (by omega)
    refine ⟨h.1, ?_, ?_⟩
    · show randint 0 ((doc.page_count : Int) - 1) r1 < (doc.page_count : Int)
      omega
    · intro _htitle
      show ("Random Page" : String) ≠ ""
      decide
  · rw [grcp_main doc r1 r2 htoc h2]
    have hlt := grcp_idx_lt doc r1 h2
    have hb := chapter_bounds doc hpc htp _ hlt
    have hse := chapter_start_le_end doc (filtered_chapters doc)
      ((randint 0 (((filtered_chapters doc).length : Int) - 1) r1).toNat)
    have hr := randint_mem r2 hse
    refine ⟨by omega, by omega, fun htitle => ?_⟩
    exact htitle _ (filtered_chapters_sub doc _ (getD_mem_of_lt _ _ hlt))

/-- Claim C2 witness: the spec scenario document has in-range targets
and non-empty titles, and the amended guarantees hold there. -/
theorem C2_select_page_witness :
    1 ≤ exDoc.page_count ∧ exDoc.toc ≠ [] ∧
    (∀ e ∈ exDoc.toc, 1 ≤ e.target_page ∧ e.target_page ≤ (exDoc.page_count : Int)) ∧
    (0 ≤ (get_random_chapter_page exDoc 0 0).1 ∧
     (get_random_chapter_page exDoc 0 0).1 < (exDoc.page_count : Int) ∧
     ((∀ e ∈ exDoc.toc, e.title ≠ "") →
       (get_random_chapter_page exDoc 0 0).2 ≠ "")) :=
  ⟨by decide, by decide, by decide,
   C2_select_page_amended exDoc (by decide) (by decide) (by decide) 0 0⟩

/-- Claim C3: on the main branch, driving the index draw to chapter `i`
returns that chapter's title and a page between `target_i - 1` and the
clamped end (`target_(i+1) - 2` when `i` is not last, else
`page_count - 1`); the index draw and the page draw are uniform in the
seed; and on the spec scenario document the ranges are Ch1 = [0, 8],
Ch2 = [9, 23], Ch3 = [24, 29], with chapter index 1 yielding a page in
[9, 23] titled Ch2. -/
theorem C3_chapter_algorithm (doc : Document) (i r2 : Nat)
    (htoc : doc.toc ≠ []) (hchs : filtered_chapters doc ≠ [])
    (hi : i < (filtered_chapters doc).length) :
    (get_random_chapter_page doc i r2).2 =
      ((filtered_chapters doc).getD i default).title ∧
    chapter_start (filtered_chapters doc) i ≤
      (get_random_chapter_page doc i r2).1 ∧
    (get_random_chapter_page doc i r2).1 ≤
      chapter_end doc (filtered_chapters doc) i ∧
    (∀ p : Int,
      (chapter_start (filtered_chapters doc) i ≤ p ∧
       p ≤ chapter_end doc (filtered_chapters doc) i) ↔
      ∃! r : Nat, (r : Int) ≤ chapter_end doc (filtered_chapters doc) i -
          chapter_start (filtered_chapters doc) i ∧
        randint (chapter_start (filtered_chapters doc) i)
          (chapter_end doc (filtered_chapters doc) i) r = p) ∧
    (∀ j : Nat, j < (filtered_chapters doc).length ↔
      ∃! r : Nat, r < (filtered_chapters doc).length ∧
        (randint 0 (((filtered_chapters doc).length : Int) - 1) r).toNat = j) ∧
    chapter_start (filtered_chapters exDoc) 0 = 0 ∧
    chapter_end exDoc (filtered_chapters exDoc) 0 = 8 ∧
    chapter_start (filtered_chapters exDoc) 1 = 9 ∧
    chapter_end exDoc (filtered_chapters exDoc) 1 = 23 ∧
    chapter_start (filtered_chapters exDoc) 2 = 24 ∧
    chapter_end exDoc (filtered_chapters exDoc) 2 = 29 ∧
    (get_random_chapter_page exDoc 1 r2).2 = "Ch2" ∧
    9 ≤ (get_random_chapter_page exDoc 1 r2).1 ∧
    (get_random_chapter_page exDoc 1 r2).1 ≤ 23 := by
  have hmain := grcp_main doc i r2 htoc hchs
  have hidx : (randint 0 (((filtered_chapters doc).length : Int) - 1) i).toNat = i :=
    randint_index i hi
  rw [hidx] at hmain
  have hse := chapter_start_le_end doc (filtered_chapters doc) i
  have hr := randint_mem r2 hse
  have hexmain := grcp_main exDoc 1 r2 (by decide) (by decide)
  have hexidx : (randint 0 (((filtered_chapters exDoc).length : Int) - 1) 1).toNat = 1 := by
    decide
  rw [hexidx] at hexmain
  have hexse := chapter_start_le_end exDoc (filtered_chapters exDoc) 1
  have hexr := randint_mem r2 hexse
  have hexs : chapter_start (filtered_chapters exDoc) 1 = 9 := by decide
  have hexe : chapter_end exDoc (filtered_chapters exDoc) 1 = 23 := by decide
  rw [hmain, hexmain]
  refine ⟨rfl, by omega, by omega,
    fun p => randint_uniform hse p,
    fun j => randint_index_uniform (List.length_pos.mpr hchs) j,
    by decide, by decide, by decide, by decide, by decide, by decide,
    rfl, by omega, by omega⟩

/-- Claim C3 witness: the spec scenario document at chapter index 1. -/
theorem C3_chapter_algorithm_witness :
    exDoc.toc ≠ [] ∧ filtered_chapters exDoc ≠ [] ∧
    1 < (filtered_chapters exDoc).length ∧
    (get_random_chapter_page exDoc 1 0).2 =
      ((filtered_chapters exDoc).getD 1 default).title :=
  ⟨by decide, by decide, by decide,
   (C3_chapter_algorithm exDoc 1 0 (by decide) (by decide) (by decide)).1⟩

/-- Claim C4, counterexample: a two-entry outline with in-range target
pages whose first target is not page 1 and whose targets decrease.
Page 0 lies in `[0, page_count)` but in no chapter range (coverage
fails), while page 4 lies in both chapter ranges (non-overlap fails). -/
theorem C4_chapter_ranges_counterexample :
    filtered_chapters doc4 ≠ [] ∧
    (∀ e ∈ doc4.toc, 1 ≤ e.target_page ∧ e.target_page ≤ (doc4.page_count : Int)) ∧
    (0 : Int) < (doc4.page_count : Int) ∧
    (∀ i, i < (filtered_chapters doc4).length →
      ¬ (chapter_start (filtered_chapters doc4) i ≤ 0 ∧
         (0 : Int) ≤ chapter_end doc4 (filtered_chapters doc4) i)) ∧
    chapter_start (filtered_chapters doc4) 0 ≤ 4 ∧
    (4 : Int) ≤ chapter_end doc4 (filtered_chapters doc4) 0 ∧
    chapter_start (filtered_chapters doc4) 1 ≤ 4 ∧
    (4 : Int) ≤ chapter_end doc4 (filtered_chapters doc4) 1 := by
  decide

/-- Claim C4 as amended: under the additional hypotheses that the first
filtered entry targets page 1 and that the filtered target pages are
strictly increasing, the chapter ranges are adjacent, pairwise disjoint
and jointly cover `[0, page_count)`; every range satisfies end ≥ start
after clamping, and the last range ends at `page_count - 1`. -/
theorem C4_chapter_ranges_amended (doc : Document)
    (hchs : filtered_chapters doc ≠ [])
    (htp : ∀ e ∈ doc.toc, 1 ≤ e.target_page ∧ e.target_page ≤ (doc.page_count : Int))
    (hfirst : ((filtered_chapters doc).getD 0 default).target_page = 1)
    (hincr : ∀ j : Nat, j < (filtered_chapters doc).length → ∀ i : Nat, i < j →
      ((filtered_chapters doc).getD i default).target_page <
      ((filtered_chapters doc).getD j default).target_page) :
    (∀ i, i < (filtered_chapters doc).length →
      chapter_start (filtered_chapters doc) i ≤
      chapter_end doc (filtered_chapters doc) i) ∧
    chapter_end doc (filtered_chapters doc)
      ((filtered_chapters doc).length - 1) = (doc.page_count : Int) - 1 ∧
    (∀ i, i + 1 < (filtered_chapters doc).length →
      chapter_end doc (filtered_chapters doc) i + 1 =
      chapter_start (filtered_chapters doc) (i + 1)) ∧
    (∀ i j : Nat, i < j → j < (filtered_chapters doc).length → ∀ p : Int,
      ¬ (chapter_start (filtered_chapters doc) i ≤ p ∧
         p ≤ chapter_end doc (filtered_chapters doc) i ∧
         chapter_start (filtered_chapters doc) j ≤ p ∧
         p ≤ chapter_end doc (filtered_chapters doc) j)) ∧
    (∀ p : Int, 0 ≤ p → p < (doc.page_count : Int) →
      ∃ i, i < (filtered_chapters doc).length ∧
        chapter_start (filtered_chapters doc) i ≤ p ∧
        p ≤ chapter_end doc (filtered_chapters doc) i) := by
  have hn : 0 < (filtered_chapters doc).length := List.length_pos.mpr hchs
  have htp' : ∀ i, i < (filtered_chapters doc).length →
      1 ≤ ((filtered_chapters doc).getD i default).target_page ∧
      ((filtered_chapters doc).getD i default).target_page ≤ (doc.page_count : Int) :=
    fun i hi => htp _ (filtered_chapters_sub doc _ (getD_mem_of_lt _ _ hi))
  have hnoclamp : ∀ i, i < (filtered_chapters doc).length →
      chapter_end doc (filtered_chapters doc) i =
      chapter_end_raw doc (filtered_chapters doc) i := by
    intro i hi
    unfold chapter_end
    split
    case isTrue hlt =>
      exfalso
      revert hlt
      unfold chapter_start chapter_end_raw
      split
      case isTrue h =>
        have := hincr (i + 1) (by omega) i (by omega)
        omega
      case isFalse h =>
        have := (htp' i hi).2
        omega
    case isFalse hlt => rfl
  have hlastend : chapter_end doc (filtered_chapters doc)
      ((filtered_chapters doc).length - 1) = (doc.page_count : Int) - 1 := by
    rw [hnoclamp _ (by omega)]
    unfold chapter_end_raw
    rw [if_neg (by omega)]
  have hadj : ∀ i, i + 1 < (filtered_chapters doc).length →
      chapter_end doc (filtered_chapters doc) i + 1 =
      chapter_start (filtered_chapters doc) (i + 1) := by
    intro i hip
    rw [hnoclamp i (by omega)]
    unfold chapter_end_raw chapter_start
    rw [if_pos (by omega)]
    omega
  have hdisj : ∀ i j : Nat, i < j → j < (filtered_chapters doc).length →
      ∀ p : Int,
      ¬ (chapter_start (filtered_chapters doc) i ≤ p ∧
         p ≤ chapter_end doc (filtered_chapters doc) i ∧
         chapter_start (filtered_chapters doc) j ≤ p ∧
         p ≤ chapter_end doc (filtered_chapters doc) j) := by
    rintro i j hij hj p ⟨h1, h2, h3, h4⟩
    have hi : i < (filtered_chapters doc).length := by omega
    have hiend : chapter_end doc (filtered_chapters doc) i =
        ((filtered_chapters doc).getD (i + 1) default).target_page - 2 := by
      rw [hnoclamp i hi]
      unfold chapter_end_raw
      rw [if_pos (by omega)]
    have hle : ((filtered_chapters doc).getD (i + 1) default).target_page ≤
        ((filtered_chapters doc).getD j default).target_page := by
      rcases Nat.lt_or_ge (i + 1) j with h | h
      · exact le_of_lt (hincr j hj (i + 1) h)
      · have hj' : i + 1 = j := by omega
        rw [hj']
    rw [hiend] at h2
    unfold chapter_start at h3
    omega
  have hcov : ∀ n, n < (filtered_chapters doc).length → ∀ p : Int, 0 ≤ p →
      p ≤ chapter_end doc (filtered_chapters doc) n →
      ∃ i, i ≤ n ∧ chapter_start (filtered_chapters doc) i ≤ p ∧
        p ≤ chapter_end doc (filtered_chapters doc) i := by
    intro n
    induction n with
    | zero =>
      intro _h0 p hp0 hpe
      refine ⟨0, le_refl 0, ?_, hpe⟩
      unfold chapter_start
      rw [hfirst]
      omega
    | succ m ih =>
      intro hm p hp0 hpe
      by_cases hcase : p ≤ chapter_end doc (filtered_chapters doc) m
      · obtain ⟨i, hi1, hi2, hi3⟩ := ih (by omega) p hp0 hcase
        exact ⟨i, by omega, hi2, hi3⟩
      · refine ⟨m + 1, le_refl _, ?_, hpe⟩
        have := hadj m (by omega)
        omega
  refine ⟨fun i _hi => chapter_start_le_end doc (filtered_chapters doc) i,
    hlastend, hadj, hdisj, fun p hp0 hppc => ?_⟩
  obtain ⟨i, hi1, hi2, hi3⟩ :=
    hcov ((filtered_chapters doc).length - 1) (by omega) p hp0 (by omega)
  exact ⟨i, by omega, hi2, hi3⟩

/-- Claim C4 witness: the spec scenario document satisfies the amended
hypotheses, so its three ranges tile `[0, 30)`. -/
theorem C4_chapter_ranges_witness :
    filtered_chapters exDoc ≠ [] ∧
    (∀ e ∈ exDoc.toc, 1 ≤ e.target_page ∧ e.target_page ≤ (exDoc.page_count : Int)) ∧
    ((filtered_chapters exDoc).getD 0 default).target_page = 1 ∧
    chapter_end exDoc (filtered_chapters exDoc)
      ((filtered_chapters exDoc).length - 1) = (exDoc.page_count : Int) - 1 :=
  ⟨by decide, by decide, by decide,
   (C4_chapter_ranges_amended exDoc (by decide) (by decide) (by decide)
     (by decide)).2.1⟩

/-- Claim C5: with an empty outline the selector returns the
whole-document draw with the sentinel title; with an outline containing
no entry of level at most 2 it returns the whole-document draw with the
generic title; in both cases the draw is uniform over `[0, page_count)`:
every page of the document is produced by exactly one seed in
`[0, page_count)`. -/
theorem C5_fallback_uniform (doc : Document) (hpc : 1 ≤ doc.page_count)
    (r1 r2 : Nat) :
    (doc.toc = [] →
      get_random_chapter_page doc r1 r2 =
        (randint 0 ((doc.page_count : Int) - 1) r1, "Unknown Chapter (No ToC)")) ∧
    (doc.toc ≠ [] → filtered_chapters doc = [] →
      get_random_chapter_page doc r1 r2 =
        (randint 0 ((doc.page_count : Int) - 1) r1, "Random Page")) ∧
    (∀ p : Int, (0 ≤ p ∧ p < (doc.page_count : Int)) ↔
      ∃! r : Nat, (r : Int) ≤ (doc.page_count : Int) - 1 ∧
        randint 0 ((doc.page_count : Int) - 1) r = p) := by
  refine ⟨fun h => grcp_empty_toc doc r1 r2 h,
    fun h1 h2 => grcp_no_chapters doc r1 r2 h1 h2, fun p => ?_⟩
  have h := @randint_uniform 0 ((doc.page_count : Int) - 1) (by omega) p
  simp only [sub_zero] at h
  exact (show (0 ≤ p ∧ p < (doc.page_count : Int)) ↔
    (0 ≤ p ∧ p ≤ (doc.page_count : Int) - 1) by omega).trans h

/-- Claim C5 witness: the three-page document with no outline. -/
theorem C5_fallback_uniform_witness :
    1 ≤ (⟨3, []⟩ : Document).page_count ∧
    ((⟨3, []⟩ : Document).toc = [] →
      get_random_chapter_page ⟨3, []⟩ 1 0 =
        (randint 0 (((⟨3, []⟩ : Document).page_count : Int) - 1) 1,
         "Unknown Chapter (No ToC)")) :=
  ⟨by decide, fun h => (C5_fallback_uniform ⟨3, []⟩ (by decide) 1 0).1 h⟩

/-- Claim C6: the Reset App handler returns the session to its zero
value from any prior state: every field, including the learner answer
and the feedback, is cleared. -/
theorem C6_reset_clears_all_fields (s : SessionState) :
    resetHandler s = emptySession ∧
    (resetHandler s).page = none ∧
    (resetHandler s).chapter = none ∧
    (resetHandler s).img = none ∧
    (resetHandler s).current_question = none ∧
    (resetHandler s).q_type = none ∧
    (resetHandler s).feedback = none ∧
    (resetHandler s).answer = none :=
  ⟨rfl, rfl, rfl, rfl, rfl, rfl, rfl, rfl⟩

/-- Claim C7: the Generate handler stores an archetype drawn from
exactly the three-element archetype list (each element produced by
exactly one seed below 3), and the grading prompt later built from the
session embeds that same stored value verbatim. -/
theorem C7_archetype_carried (doc : Document) (s : SessionState)
    (r1 r2 rT : Nat) (respond : String → Option String) (ans : String) :
    (generateHandler doc s r1 r2 rT respond).q_type =
      some (random_choice q_types rT) ∧
    random_choice q_types rT ∈ q_types ∧
    (∀ t ∈ q_types, ∃! r : Nat, r < 3 ∧ random_choice q_types r = t) ∧
    (∃ a b : String,
      grade_prompt ((generateHandler doc s r1 r2 rT respond).q_type.getD "")
        ((generateHandler doc s r1 r2 rT respond).current_question.getD "")
        ans =
      a ++ random_choice q_types rT ++ b) := by
  have hq : (generateHandler doc s r1 r2 rT respond).q_type =
      some (random_choice q_types rT) := by
    simp only [generateHandler]
    split <;> rfl
  refine ⟨hq, random_choice_mem rT, fun t ht => random_choice_uniform t ht, ?_⟩
  refine ⟨"You are grading a student answer.\n\nQuestion Type: ",
    "\nQuestion: " ++
      ((generateHandler doc s r1 r2 rT respond).current_question.getD "") ++
      "\nStudent Answer: " ++ ans ++
      "\n\nTask:\n1. Verify the answer against the image provided.\n2. If it is Multiple Choice, check if they selected the correct option letter or text.\n3. If it is Fill-in-the-Blank, check if they found the exact missing term.\n4. Provide the correct answer and a brief explanation.\n\nOutput Language: Hebrew.\nUse bold text for the final verdict (Correct/Incorrect).\n",
    ?_⟩
  rw [hq]
  simp only [Option.getD_some, grade_prompt, string_append_assoc]

/-- Claim C9: a Check Answer submission writes only the feedback field;
page, chapter, image, question, archetype and the stored answer field
are untouched, and the feedback becomes the model response to the
grading prompt. -/
theorem C9_check_answer_frame (s : SessionState) (ans : String)
    (respond : String → String) :
    (checkAnswerHandler s ans respond).1.page = s.page ∧
    (checkAnswerHandler s ans respond).1.chapter = s.chapter ∧
    (checkAnswerHandler s ans respond).1.img = s.img ∧
    (checkAnswerHandler s ans respond).1.current_question = s.current_question ∧
    (checkAnswerHandler s ans respond).1.q_type = s.q_type ∧
    (checkAnswerHandler s ans respond).1.answer = s.answer ∧
    (checkAnswerHandler s ans respond).1.feedback =
      some (respond
        (grade_prompt (s.q_type.getD "") (s.current_question.getD "") ans)) :=
  ⟨rfl, rfl, rfl, rfl, rfl, rfl, rfl⟩

set_option maxRecDepth 100000 in
/-- Claim C8, counterexample: the question block interpolates the model
text raw, so it differs from the HTML-escaped rendering and contains the
live `script` tag verbatim. -/
theorem C8_escaping_counterexample :
    render_question_block "T" "<script>" ≠
      render_question_block_escaped "T" "<script>" ∧
    (∃ a b : String, render_question_block "T" "<script>" =
      a ++ "<script>" ++ b) := by
  constructor
  · decide
  · refine ⟨"<div style=\"direction: rtl; text-align: right; background-color: #f0f2f6; padding: 20px; border-radius: 10px; border-right: 5px solid #ff4b4b;\">\n<p style=\"font-weight: bold; color: #555;\">נושא: T</p>\n<div style=\"font-size: 1.1em; white-space: pre-wrap;\">",
      "</div>\n</div>", ?_⟩
    decide

/-- Claim C8 as amended: the question and feedback blocks embed the
stored text verbatim (the feedback with newlines replaced by `br` tags)
inside HTML rendered with `unsafe_allow_html=True`; no HTML escaping is
applied, so metacharacters in the model response appear as live
markup. -/
theorem C8_raw_interpolation_amended (chapter question feedback : String) :
    (∃ a b : String,
      render_question_block chapter question = a ++ question ++ b) ∧
    (∃ a b : String,
      render_feedback_block feedback =
        a ++ (feedback.replace "\n" "<br>") ++ b) := by
  constructor
  · refine ⟨"<div style=\"direction: rtl; text-align: right; background-color: #f0f2f6; padding: 20px; border-radius: 10px; border-right: 5px solid #ff4b4b;\">\n<p style=\"font-weight: bold; color: #555;\">נושא: " ++
      chapter ++ "</p>\n<div style=\"font-size: 1.1em; white-space: pre-wrap;\">",
      "</div>\n</div>", ?_⟩
    simp only [render_question_block, string_append_assoc]
  · refine ⟨"<div style=\"direction: rtl; text-align: right; background-color: #d4edda; padding: 20px; border-radius: 10px; border-right: 5px solid #28a745; color: #155724;\">\n",
      "\n</div>", ?_⟩
    simp only [render_feedback_block, string_append_assoc]

/-- Claim C10: the Generate handler is not atomic with respect to a
model-client failure: when the call raises, the session keeps exactly
the writes made before the call — question and feedback cleared, the
fresh page, chapter, image and archetype stored. -/
theorem C10_generate_partial_on_failure (doc : Document) (s : SessionState)
    (r1 r2 rT : Nat) (respond : String → Option String)
    (hfail : respond (full_prompt (get_random_chapter_page doc r1 r2).2
      (random_choice q_types rT)) = none) :
    generateHandler doc s r1 r2 rT respond =
      { s with
        feedback := none
        current_question := none
        page := some (get_random_chapter_page doc r1 r2).1
        chapter := some (get_random_chapter_page doc r1 r2).2
        img := some (get_page_image doc (get_random_chapter_page doc r1 r2).1)
        q_type := some (random_choice q_types rT) } := by
  simp only [generateHandler]
  rw [hfail]

/-- Claim C10 witness: a failing model client on the one-page document
with no outline. -/
theorem C10_generate_partial_witness :
    ((fun _ : String => (none : Option String))
      (full_prompt (get_random_chapter_page docNoToc 0 0).2
        (random_choice q_types 0)) = none) ∧
    generateHandler docNoToc emptySession 0 0 0 (fun _ => none) =
      { emptySession with
        feedback := none
        current_question := none
        page := some (get_random_chapter_page docNoToc 0 0).1
        chapter := some (get_random_chapter_page docNoToc 0 0).2
        img := some (get_page_image docNoToc (get_random_chapter_page docNoToc 0 0).1)
        q_type := some (random_choice q_types 0) } :=
  ⟨rfl, C10_generate_partial_on_failure docNoToc emptySession 0 0 0
    (fun _ => none) rfl⟩

end StudyTutor
